import Mathlib

/-!
Verification development for the `secsgem` HSMS packet layer
(`hsmsPackets.py`) and the SECS dispatch layer (`secsHandler.py`).

Bytes are modelled as `List Nat` (each element a byte value `< 256` where
the wire format is concerned).  Python's `struct.pack`/`struct.unpack`
with the big-endian format `">LHBBBBL{n}s"` is modelled explicitly:
`pack` range-checks every field and raises on overflow, which we model by
`encode` returning `Option`; `unpack` demands the exact byte count, which
`decode` models by pattern matching on the first 14 bytes.
-/

/-- Header state of `HsmsHeader` (`hsmsPackets.py`): the seven attributes
set by `HsmsHeader.__init__` and mutated by the subclasses. -/
structure HsmsHeader where
  sessionID : Nat
  requireResponse : Bool
  stream : Nat
  function : Nat
  pType : Nat
  sType : Nat
  system : Nat
deriving DecidableEq, Repr

/-- `HsmsHeader.__init__(system, session_id)`: requireResponse=False,
stream=0, function=0, pType=0, sType=1. -/
def HsmsHeader.init (system session_id : Nat) : HsmsHeader :=
  { sessionID := session_id, requireResponse := false, stream := 0,
    function := 0, pType := 0, sType := 1, system := system }

/-- `HsmsSelectReqHeader.__init__` (sType 1): base init with session 0xFFFF,
then the listed field assignments. -/
def HsmsSelectReqHeader (system : Nat) : HsmsHeader :=
  { HsmsHeader.init system 65535 with
    requireResponse := false, stream := 0, function := 0, pType := 0, sType := 1 }

/-- `HsmsSelectRspHeader.__init__` (sType 2). -/
def HsmsSelectRspHeader (system : Nat) : HsmsHeader :=
  { HsmsHeader.init system 65535 with
    requireResponse := false, stream := 0, function := 0, pType := 0, sType := 2 }

/-- `HsmsDeselectReqHeader.__init__` (sType 3). -/
def HsmsDeselectReqHeader (system : Nat) : HsmsHeader :=
  { HsmsHeader.init system 65535 with
    requireResponse := false, stream := 0, function := 0, pType := 0, sType := 3 }

/-- `HsmsDeselectRspHeader.__init__` (sType 4). -/
def HsmsDeselectRspHeader (system : Nat) : HsmsHeader :=
  { HsmsHeader.init system 65535 with
    requireResponse := false, stream := 0, function := 0, pType := 0, sType := 4 }

/-- `HsmsLinktestReqHeader.__init__` (sType 5). -/
def HsmsLinktestReqHeader (system : Nat) : HsmsHeader :=
  { HsmsHeader.init system 65535 with
    requireResponse := false, stream := 0, function := 0, pType := 0, sType := 5 }

/-- `HsmsLinktestRspHeader.__init__` (sType 6). -/
def HsmsLinktestRspHeader (system : Nat) : HsmsHeader :=
  { HsmsHeader.init system 65535 with
    requireResponse := false, stream := 0, function := 0, pType := 0, sType := 6 }

/-- `HsmsRejectReqHeader.__init__(system, s_type, reason)` (sType 7):
`stream` holds the rejected message's sType, `function` holds the reason. -/
def HsmsRejectReqHeader (system s_type reason : Nat) : HsmsHeader :=
  { HsmsHeader.init system 65535 with
    requireResponse := false, stream := s_type, function := reason,
    pType := 0, sType := 7 }

/-- `HsmsSeparateReqHeader.__init__` (sType 9). -/
def HsmsSeparateReqHeader (system : Nat) : HsmsHeader :=
  { HsmsHeader.init system 65535 with
    requireResponse := false, stream := 0, function := 0, pType := 0, sType := 9 }

/-- `HsmsStreamFunctionHeader.__init__(system, stream, function,
require_response, session_id)` (sType 0). -/
def HsmsStreamFunctionHeader (system stream function : Nat)
    (require_response : Bool) (session_id : Nat) : HsmsHeader :=
  { HsmsHeader.init system session_id with
    sessionID := session_id, requireResponse := require_response,
    stream := stream, function := function, pType := 0, sType := 0,
    system := system }

/-- `HsmsPacket`: a header plus the data payload. -/
structure HsmsPacket where
  header : HsmsHeader
  data : List Nat
deriving DecidableEq, Repr

/-- Big-endian 2-byte encoding of `struct.pack(">H", v)` for in-range `v`. -/
def packBE2 (v : Nat) : List Nat :=
  [v / 256 % 256, v % 256]

/-- Big-endian 4-byte encoding of `struct.pack(">L", v)` for in-range `v`. -/
def packBE4 (v : Nat) : List Nat :=
  [v / 16777216 % 256, v / 65536 % 256, v / 256 % 256, v % 256]

/-- The stream byte written by `HsmsPacket.encode`: `header_stream =
self.header.stream`, OR-ed with `0b10000000` when `requireResponse`.
Note the source does not mask `stream` with `0x7F`. -/
def headerStream (h : HsmsHeader) : Nat :=
  if h.requireResponse then h.stream ||| 128 else h.stream

/-- `HsmsPacket.encode`: `struct.pack(">LHBBBBL{n}s", 10+len(data),
sessionID, header_stream, function, pType, sType, system, data)`.
`struct.pack` raises `struct.error` when a field exceeds its width
(`H`: 16 bits, `B`: 8 bits, `L`: 32 bits), modelled as `none`. -/
def HsmsPacket.encode (p : HsmsPacket) : Option (List Nat) :=
  if 10 + p.data.length ≤ 4294967295 ∧ p.header.sessionID ≤ 65535 ∧
     headerStream p.header ≤ 255 ∧ p.header.function ≤ 255 ∧
     p.header.pType ≤ 255 ∧ p.header.sType ≤ 255 ∧
     p.header.system ≤ 4294967295 then
    some (packBE4 (10 + p.data.length) ++ packBE2 p.header.sessionID ++
          [headerStream p.header, p.header.function, p.header.pType,
           p.header.sType] ++ packBE4 p.header.system ++ p.data)
  else none

/-- `HsmsPacket.decode(text)`: `struct.unpack(">LHBBBBL{len(text)-14}s", text)`.
For inputs shorter than 14 bytes the computed string length is negative and
`struct` raises (`none`); otherwise the unpack always succeeds, the 4-byte
length field (`res[0]`) is read but never used, and the fields are:
`requireResponse = ((res[2] & 0b10000000) >> 7) == 1`,
`stream = res[2] & 0b01111111`, payload = everything after byte 13. -/
def HsmsPacket.decode (text : List Nat) : Option HsmsPacket :=
  match text with
  | _b0 :: _b1 :: _b2 :: _b3 :: b4 :: b5 :: b6 :: b7 :: b8 :: b9 ::
    b10 :: b11 :: b12 :: b13 :: rest =>
      some { header := { sessionID := b4 * 256 + b5,
                         requireResponse := ((b6 &&& 128) >>> 7) == 1,
                         stream := b6 &&& 127,
                         function := b7,
                         pType := b8,
                         sType := b9,
                         system := ((b10 * 256 + b11) * 256 + b12) * 256 + b13 },
             data := rest }
  | _ => none

/-- Byte layout of §4.2 of the spec, with the stream byte as the source
actually computes it: the raw `stream` value (unmasked) OR-ed with `0x80`
exactly when `responseExpected`. -/
def wireLayout (h : HsmsHeader) (d : List Nat) : List Nat :=
  [(10 + d.length) / 16777216 % 256, (10 + d.length) / 65536 % 256,
   (10 + d.length) / 256 % 256, (10 + d.length) % 256,
   h.sessionID / 256 % 256, h.sessionID % 256,
   h.stream ||| (if h.requireResponse then 128 else 0),
   h.function, h.pType, h.sType,
   h.system / 16777216 % 256, h.system / 65536 % 256,
   h.system / 256 % 256, h.system % 256] ++ d

/-- The stream byte as the spec's §4.2 claims it is computed:
`(stream & 0x7F) | (0x80 if responseExpected else 0)`. -/
def maskedStreamByte (s : Nat) (rr : Bool) : Nat :=
  (s &&& 127) ||| (if rr then 128 else 0)

lemma le_lor_left (a b : Nat) : a ≤ a ||| b := by
  have habs : a &&& (a ||| b) = a := by
    refine Nat.eq_of_testBit_eq fun i => ?_
    rw [Nat.testBit_and, Nat.testBit_or]
    cases a.testBit i <;> cases b.testBit i <;> rfl
  calc a = a &&& (a ||| b) := habs.symm
    _ ≤ a ||| b := Nat.and_le_right

set_option maxRecDepth 4096 in
lemma byte_facts : ∀ s, s < 256 → ∀ rr : Bool,
    (if rr then s ||| 128 else s) ≤ 255 ∧
    ((if rr then s ||| 128 else s) &&& 127) = s % 128 ∧
    ((((if rr then s ||| 128 else s) &&& 128) >>> 7) == 1) =
      (rr || s.testBit 7) := by decide

lemma and128_shift (b : Nat) : (((b &&& 128) >>> 7) == 1) = b.testBit 7 := by
  rw [show (128 : Nat) = 2 ^ 7 from rfl, Nat.and_two_pow]
  cases h : b.testBit 7 <;> simp

/-- Closed form of `HsmsPacket.decode` in terms of the input's length and
byte values. -/
lemma decode_eq (text : List Nat) :
    HsmsPacket.decode text =
      if 14 ≤ text.length then
        some { header := { sessionID := text.getD 4 0 * 256 + text.getD 5 0,
                           requireResponse :=
                             ((text.getD 6 0 &&& 128) >>> 7) == 1,
                           stream := text.getD 6 0 &&& 127,
                           function := text.getD 7 0,
                           pType := text.getD 8 0,
                           sType := text.getD 9 0,
                           system := ((text.getD 10 0 * 256 + text.getD 11 0)
                             * 256 + text.getD 12 0) * 256 + text.getD 13 0 },
               data := text.drop 14 }
      else none := by
  rcases text with _ | ⟨b0, _ | ⟨b1, _ | ⟨b2, _ | ⟨b3, _ | ⟨b4, _ | ⟨b5, _ |
    ⟨b6, _ | ⟨b7, _ | ⟨b8, _ | ⟨b9, _ | ⟨b10, _ | ⟨b11, _ | ⟨b12, _ |
    ⟨b13, rest⟩⟩⟩⟩⟩⟩⟩⟩⟩⟩⟩⟩⟩⟩
  all_goals simp [HsmsPacket.decode, List.getD]

lemma headerStream_eq (h : HsmsHeader) :
    headerStream h = h.stream ||| (if h.requireResponse then 128 else 0) := by
  unfold headerStream
  cases h.requireResponse <;> simp

/-- C1 (amended): for every header whose fields fit their wire widths and
every payload that fits the length field, `decode (encode (h, p))` succeeds
and reproduces every field and the payload byte-for-byte, except that the
recovered `stream` is the low 7 bits of the original and the recovered
`requireResponse` is the original `requireResponse` OR the top bit of the
original `stream` (the top bit is transmitted, not discarded, and is folded
into `requireResponse` on decode). -/
theorem C1_roundtrip (h : HsmsHeader) (d : List Nat)
    (hsid : h.sessionID ≤ 65535) (hstr : h.stream ≤ 255)
    (hfn : h.function ≤ 255) (hpt : h.pType ≤ 255) (hst : h.sType ≤ 255)
    (hsys : h.system ≤ 4294967295) (hlen : 10 + d.length ≤ 4294967295) :
    (HsmsPacket.encode ⟨h, d⟩).bind HsmsPacket.decode =
      some ⟨⟨h.sessionID, h.requireResponse || h.stream.testBit 7,
             h.stream % 128, h.function, h.pType, h.sType, h.system⟩, d⟩ := by
  obtain ⟨f1, f2, f3⟩ := byte_facts h.stream (by omega) h.requireResponse
  have hhs : headerStream h ≤ 255 := f1
  unfold HsmsPacket.encode
  rw [if_pos ⟨hlen, hsid, hhs, hfn, hpt, hst, hsys⟩]
  simp only [packBE2, packBE4, List.cons_append, List.nil_append,
    Option.some_bind, HsmsPacket.decode, Option.some.injEq,
    HsmsPacket.mk.injEq, HsmsHeader.mk.injEq]
  exact ⟨⟨by omega, f3, f2, trivial, trivial, trivial, by omega⟩, trivial⟩

/-- C1 witness: a concrete valid data header round-trips. -/
theorem C1_roundtrip_witness :
    (HsmsPacket.encode ⟨⟨100, true, 3, 1, 0, 0, 22⟩, [7, 8]⟩).bind
        HsmsPacket.decode =
      some ⟨⟨100, true || Nat.testBit 3 7, 3 % 128, 1, 0, 0, 22⟩, [7, 8]⟩ :=
  C1_roundtrip ⟨100, true, 3, 1, 0, 0, 22⟩ [7, 8] (by decide) (by decide)
    (by decide) (by decide) (by decide) (by decide) (by decide)

/-- C1 counterexample to the claim as stated: the header with `stream = 200`
(every field within its wire width) and `requireResponse = false` does not
get its `requireResponse` reproduced — encode transmits the raw top bit of
`stream` and decode turns it into `requireResponse = true`. -/
theorem C1_counterexample :
    ((HsmsPacket.encode ⟨⟨0, false, 200, 0, 0, 0, 0⟩, []⟩).bind
        HsmsPacket.decode).map (fun q => q.header.requireResponse) =
      some true ∧
    (⟨⟨0, false, 200, 0, 0, 0, 0⟩, []⟩ : HsmsPacket).header.requireResponse
      = false := by decide

/-- C2 (amended): for every header whose fields fit their wire widths and
payload that fits the length field, `encode` produces exactly
`14 + len(payload)` bytes in the §4.2 big-endian layout, with the stream
byte equal to the raw `stream` value OR-ed with `0x80` when
`responseExpected` — the top bit of `stream` is not masked off. -/
theorem C2_wire_layout (h : HsmsHeader) (d : List Nat)
    (hsid : h.sessionID ≤ 65535) (hstr : h.stream ≤ 255)
    (hfn : h.function ≤ 255) (hpt : h.pType ≤ 255) (hst : h.sType ≤ 255)
    (hsys : h.system ≤ 4294967295) (hlen : 10 + d.length ≤ 4294967295) :
    HsmsPacket.encode ⟨h, d⟩ = some (wireLayout h d) ∧
    (wireLayout h d).length = 14 + d.length := by
  obtain ⟨f1, _, _⟩ := byte_facts h.stream (by omega) h.requireResponse
  have hhs : headerStream h ≤ 255 := f1
  constructor
  · unfold HsmsPacket.encode
    rw [if_pos ⟨hlen, hsid, hhs, hfn, hpt, hst, hsys⟩]
    simp only [wireLayout, packBE2, packBE4, headerStream_eq,
      List.cons_append, List.nil_append]
  · simp only [wireLayout, List.length_append, List.length_cons,
      List.length_nil]

/-- C2 witness: layout and length at a concrete header and payload. -/
theorem C2_wire_layout_witness :
    HsmsPacket.encode ⟨⟨258, true, 3, 2, 0, 0, 70000⟩, [9]⟩ =
      some (wireLayout ⟨258, true, 3, 2, 0, 0, 70000⟩ [9]) ∧
    (wireLayout ⟨258, true, 3, 2, 0, 0, 70000⟩ [9]).length = 14 + 1 :=
  C2_wire_layout ⟨258, true, 3, 2, 0, 0, 70000⟩ [9] (by decide) (by decide)
    (by decide) (by decide) (by decide) (by decide) (by decide)

/-- C2 counterexample to the claim as stated: with `stream = 200` and
`responseExpected = false`, encode writes the raw byte `200` at offset 6,
not the claimed `(stream & 0x7F) | 0x00`. -/
theorem C2_counterexample :
    ((HsmsPacket.encode ⟨⟨0, false, 200, 0, 0, 0, 0⟩, []⟩).map
        (fun l => l.getD 6 0)) = some 200 ∧
    maskedStreamByte 200 false ≠ 200 := by decide

/-- C3 (amended): decode fails for every input shorter than 14 bytes;
for every input of at least 14 bytes it succeeds, taking the payload to be
everything after the first 14 bytes — the declared length field is never
validated against the supplied byte count. -/
theorem C3_decode_length (text : List Nat) :
    (text.length < 14 → HsmsPacket.decode text = none) ∧
    (14 ≤ text.length → ∃ p, HsmsPacket.decode text = some p ∧
      p.data.length = text.length - 14) := by
  rw [decode_eq]
  constructor
  · intro hlt
    rw [if_neg (by omega)]
  · intro hge
    rw [if_pos hge]
    exact ⟨_, rfl, by simp⟩

/-- C3 witness: a 13-byte input is rejected. -/
theorem C3_decode_length_witness :
    HsmsPacket.decode (List.replicate 13 0) = none :=
  (C3_decode_length (List.replicate 13 0)).1 (by decide)

/-- C3 counterexample to the claim as stated: the 14-byte input whose
declared length field is 11 (≠ 14 − 4 = 10) is decoded successfully — the
length field is ignored, mismatches are not rejected.  (This is the
source's own docstring example.) -/
theorem C3_counterexample :
    (11 : Nat) ≠ 14 - 4 ∧
    HsmsPacket.decode [0, 0, 0, 11, 255, 255, 0, 0, 0, 5, 0, 0, 0, 2] =
      some ⟨⟨65535, false, 0, 0, 0, 5, 2⟩, []⟩ := by decide

/-- C4: encode never masks or truncates: if any header field exceeds its
declared bit width, or the payload would overflow the 32-bit length field,
`encode` fails (struct.pack raises, modelled as `none`). -/
theorem C4_encode_range (h : HsmsHeader) (d : List Nat)
    (hbad : 65535 < h.sessionID ∨ 255 < h.stream ∨ 255 < h.function ∨
      255 < h.pType ∨ 255 < h.sType ∨ 4294967295 < h.system ∨
      4294967295 < 10 + d.length) :
    HsmsPacket.encode ⟨h, d⟩ = none := by
  unfold HsmsPacket.encode
  rw [if_neg]
  rintro ⟨c1, c2, c3, c4, c5, c6, c7⟩
  dsimp only at c1 c2 c3 c4 c5 c6 c7
  have hle := le_lor_left h.stream 128
  have c3' : h.stream ≤ 255 := by
    unfold headerStream at c3
    split at c3 <;> omega
  rcases hbad with hb | hb | hb | hb | hb | hb | hb <;> omega

/-- C4 witness: a 17-bit session id is rejected by encode. -/
theorem C4_encode_range_witness :
    HsmsPacket.encode ⟨⟨65536, false, 0, 0, 0, 1, 0⟩, []⟩ = none :=
  C4_encode_range ⟨65536, false, 0, 0, 0, 1, 0⟩ [] (Or.inl (by decide))

/-- C10: every decoded header has `stream ≤ 127` (the low 7 bits of wire
byte 6) and `requireResponse` equal to the top bit of wire byte 6, while
encode accepts a header whose `stream` has the top bit set. -/
theorem C10_decode_stream_invariant (text : List Nat) (p : HsmsPacket)
    (hdec : HsmsPacket.decode text = some p) :
    p.header.stream ≤ 127 ∧
    p.header.requireResponse = (text.getD 6 0).testBit 7 ∧
    (HsmsPacket.encode ⟨⟨0, false, 200, 0, 0, 1, 0⟩, []⟩).isSome = true := by
  rw [decode_eq] at hdec
  split at hdec
  · injection hdec with hp
    subst hp
    exact ⟨Nat.and_le_right, and128_shift _, by decide⟩
  · exact absurd hdec (by simp)

/-- C10 witness: decoding a packet whose stream byte is 200 yields
`stream = 72 ≤ 127` and `requireResponse = true`. -/
theorem C10_decode_stream_invariant_witness :
    (⟨⟨65535, true, 72, 0, 0, 0, 9⟩, []⟩ : HsmsPacket).header.stream ≤ 127 ∧
    (⟨⟨65535, true, 72, 0, 0, 0, 9⟩, []⟩ : HsmsPacket).header.requireResponse
      = (([0, 0, 0, 10, 255, 255, 200, 0, 0, 0, 0, 0, 0, 9] :
          List Nat).getD 6 0).testBit 7 ∧
    (HsmsPacket.encode ⟨⟨0, false, 200, 0, 0, 1, 0⟩, []⟩).isSome = true :=
  C10_decode_stream_invariant
    [0, 0, 0, 10, 255, 255, 200, 0, 0, 0, 0, 0, 0, 9]
    ⟨⟨65535, true, 72, 0, 0, 0, 9⟩, []⟩ (by decide)

/-- C5: every control-message variant constructor yields `sessionID = 0xFFFF`
and `pType = 0`; the data variant `HsmsStreamFunctionHeader` yields the
caller-supplied session id and `pType = 0`. -/
theorem C5_variant_headers (system s_type reason stream function : Nat)
    (rr : Bool) (session_id : Nat) :
    (HsmsSelectReqHeader system).sessionID = 65535 ∧
    (HsmsSelectReqHeader system).pType = 0 ∧
    (HsmsSelectRspHeader system).sessionID = 65535 ∧
    (HsmsSelectRspHeader system).pType = 0 ∧
    (HsmsDeselectReqHeader system).sessionID = 65535 ∧
    (HsmsDeselectReqHeader system).pType = 0 ∧
    (HsmsDeselectRspHeader system).sessionID = 65535 ∧
    (HsmsDeselectRspHeader system).pType = 0 ∧
    (HsmsLinktestReqHeader system).sessionID = 65535 ∧
    (HsmsLinktestReqHeader system).pType = 0 ∧
    (HsmsLinktestRspHeader system).sessionID = 65535 ∧
    (HsmsLinktestRspHeader system).pType = 0 ∧
    (HsmsRejectReqHeader system s_type reason).sessionID = 65535 ∧
    (HsmsRejectReqHeader system s_type reason).pType = 0 ∧
    (HsmsSeparateReqHeader system).sessionID = 65535 ∧
    (HsmsSeparateReqHeader system).pType = 0 ∧
    (HsmsStreamFunctionHeader system stream function rr session_id).sessionID
      = session_id ∧
    (HsmsStreamFunctionHeader system stream function rr session_id).pType
      = 0 :=
  ⟨rfl, rfl, rfl, rfl, rfl, rfl, rfl, rfl, rfl, rfl, rfl, rfl, rfl, rfl,
   rfl, rfl, rfl, rfl⟩

/-- C6: encoding a linktest request with transaction id 2 and empty payload
yields exactly `00 00 00 0A FF FF 00 00 00 05 00 00 00 02`. -/
theorem C6_linktest_encode :
    HsmsPacket.encode ⟨HsmsLinktestReqHeader 2, []⟩ =
      some [0, 0, 0, 10, 255, 255, 0, 0, 0, 5, 0, 0, 0, 2] := by decide

/-- C7: `HsmsRejectReqHeader` yields `sType = 7` and repurposes `stream` to
carry the rejected message's type and `function` to carry the reason. -/
theorem C7_reject_header (system s_type reason : Nat) :
    (HsmsRejectReqHeader system s_type reason).sType = 7 ∧
    (HsmsRejectReqHeader system s_type reason).stream = s_type ∧
    (HsmsRejectReqHeader system s_type reason).function = reason :=
  ⟨rfl, rfl, rfl⟩

/-!
Dispatch layer, `secsDefaultHandler` in `secsHandler.py`.  The two
stream/function catalogues (`secsStreamsFunctionsHost`,
`secsStreamsFunctionsEquipment`) are Python dicts of dicts whose values
are message classes; a dict is modelled as an association list with
`dictLookup` playing the role of the `in`/`[]` operations, and a message
class is modelled abstractly by a table-entry type `α` (for `secsDecode`,
a decoding function from the payload).
-/

/-- The state of a `secsDefaultHandler` that the two lookup methods read:
`isHost` and the two catalogues. -/
structure SecsHandler (α : Type) where
  isHost : Bool
  secsStreamsFunctionsHost : List (Nat × List (Nat × α))
  secsStreamsFunctionsEquipment : List (Nat × List (Nat × α))

/-- Python dict membership plus subscript: `none` when the key is absent. -/
def dictLookup {α : Type} (d : List (Nat × α)) (k : Nat) : Option α :=
  match d.find? (fun e => e.fst == k) with
  | none => none
  | some e => some e.snd

/-- `secsDefaultHandler.streamFunction(stream, function)`: selects the
catalogue of the handler's own role (`Host` table when `isHost`), returns
`None` (after a logged warning) when the stream or the function is not
registered, and the registered entry otherwise. -/
def SecsHandler.streamFunction {α : Type} (self : SecsHandler α)
    (stream function : Nat) : Option α :=
  let secsStreamsFunctions :=
    if self.isHost then self.secsStreamsFunctionsHost
    else self.secsStreamsFunctionsEquipment
  match dictLookup secsStreamsFunctions stream with
  | none => none
  | some inner =>
    match dictLookup inner function with
    | none => none
    | some f => some f

/-- `secsDefaultHandler.secsDecode(packet)`: selects the catalogue of the
OPPOSITE role (`Equipment` table when `isHost`), returns `None` when the
packet's stream or function is not registered, and otherwise instantiates
the registered class and decodes the packet payload with it. -/
def SecsHandler.secsDecode {β : Type} (self : SecsHandler (List Nat → β))
    (packet : HsmsPacket) : Option β :=
  let secsStreamsFunctions :=
    if self.isHost then self.secsStreamsFunctionsEquipment
    else self.secsStreamsFunctionsHost
  match dictLookup secsStreamsFunctions packet.header.stream with
  | none => none
  | some inner =>
    match dictLookup inner packet.header.function with
    | none => none
    | some f => some (f packet.data)

/-- C8: when the selected catalogue has no entry for (stream, function),
`streamFunction` returns the `None` sentinel (it never throws — it is a
total function), and repeating the call gives the same result. -/
theorem C8_streamFunction_notfound {α : Type} (self : SecsHandler α)
    (s f : Nat)
    (hnone : ∀ inner,
      dictLookup (if self.isHost then self.secsStreamsFunctionsHost
        else self.secsStreamsFunctionsEquipment) s = some inner →
      dictLookup inner f = none) :
    self.streamFunction s f = none ∧
    self.streamFunction s f = self.streamFunction s f := by
  refine ⟨?_, rfl⟩
  unfold SecsHandler.streamFunction
  cases htab : dictLookup (if self.isHost then self.secsStreamsFunctionsHost
      else self.secsStreamsFunctionsEquipment) s with
  | none => simp [htab]
  | some inner => simp [htab, hnone inner htab]

/-- C8 witness: `resolve(Host, 99, 99)` against an empty catalogue. -/
theorem C8_streamFunction_notfound_witness :
    SecsHandler.streamFunction
      (⟨true, [], []⟩ : SecsHandler Nat) 99 99 = none :=
  (C8_streamFunction_notfound ⟨true, [], []⟩ 99 99
    (fun inner h => by simp [dictLookup] at h)).1

/-- C9: `secsDecode` resolves via the table of the role opposite to the
local role — a Host-role handler looks up (stream, function) in the
Equipment-side table and an Equipment-role handler in the Host-side
table; a registered codec is applied to the payload, and an unregistered
(stream, function) yields the `None` sentinel, not an exception. -/
theorem C9_secsDecode_opposite {β : Type}
    (hostT eqT : List (Nat × List (Nat × (List Nat → β))))
    (p : HsmsPacket) :
    (∀ inner c, dictLookup eqT p.header.stream = some inner →
      dictLookup inner p.header.function = some c →
      SecsHandler.secsDecode ⟨true, hostT, eqT⟩ p = some (c p.data)) ∧
    ((∀ inner, dictLookup eqT p.header.stream = some inner →
      dictLookup inner p.header.function = none) →
      SecsHandler.secsDecode ⟨true, hostT, eqT⟩ p = none) ∧
    (∀ inner c, dictLookup hostT p.header.stream = some inner →
      dictLookup inner p.header.function = some c →
      SecsHandler.secsDecode ⟨false, hostT, eqT⟩ p = some (c p.data)) ∧
    ((∀ inner, dictLookup hostT p.header.stream = some inner →
      dictLookup inner p.header.function = none) →
      SecsHandler.secsDecode ⟨false, hostT, eqT⟩ p = none) := by
  refine ⟨?_, ?_, ?_, ?_⟩
  · intro inner c h1 h2
    unfold SecsHandler.secsDecode
    simp [h1, h2]
  · intro hnone
    unfold SecsHandler.secsDecode
    cases htab : dictLookup eqT p.header.stream with
    | none => simp [htab]
    | some inner => simp [htab, hnone inner htab]
  · intro inner c h1 h2
    unfold SecsHandler.secsDecode
    simp [h1, h2]
  · intro hnone
    unfold SecsHandler.secsDecode
    cases htab : dictLookup hostT p.header.stream with
    | none => simp [htab]
    | some inner => simp [htab, hnone inner htab]

/-- C9 witness: a Host-role handler decodes S1F1 using the Equipment-side
table, applying the registered codec to the payload. -/
theorem C9_secsDecode_opposite_witness :
    SecsHandler.secsDecode
      (⟨true, [], [(1, [(1, fun d => d)])]⟩ :
        SecsHandler (List Nat → List Nat))
      ⟨HsmsStreamFunctionHeader 5 1 1 true 100, [42]⟩ = some [42] :=
  (C9_secsDecode_opposite [] [(1, [(1, fun d => d)])]
      ⟨HsmsStreamFunctionHeader 5 1 1 true 100, [42]⟩).1
    [(1, fun d => d)] (fun d => d) rfl rfl
